import Mathlib

/-!
Shallow embedding of the `daily_hot_mcp.scheduler` package
(`config.py`, `warmer.py`, `metrics.py`, `scheduler.py`, `manager.py`)
and proofs about the behaviour of its operations.

Python dictionaries are modelled as insertion-ordered association lists
(`List (String × β)`); `threading.Lock` is modelled by an explicit
`held` flag, where acquiring an already-held non-reentrant lock blocks
forever (modelled as `Option.none`).  Machine floats (durations, rates)
are modelled as exact rationals, since no claim depends on rounding.
-/

/-- A Python runtime value, as far as the scheduler code inspects one:
`warmer.py` only asks `isinstance(result, list)` and `len(result)`. -/
inductive PyValue where
  | list : List PyValue → PyValue
  | str : String → PyValue
  | int : Int → PyValue
  | none : PyValue

/-- Python dict assignment `m[k] = v`: overwrite in place if the key is
present, otherwise append at the end (insertion order). -/
def assocSet {β : Type} (m : List (String × β)) (k : String) (v : β) :
    List (String × β) :=
  if (m.lookup k).isSome then
    m.map (fun p => if p.1 == k then (k, v) else p)
  else
    m ++ [(k, v)]

/-- `config.SourceConfig`: configuration for a single data source. -/
structure SourceConfig where
  name : String
  tool_name : String
  enabled : Bool := true
  interval_minutes : Int := 25
  tool_params : List (String × PyValue) := []

/-- `SourceConfig.__post_init__` validation (config.py lines 27-36):
construction raises `ValueError` (modelled as `Except.error`) for an
empty name, an empty tool name, or an interval below 1; an interval
above 1440 is merely logged and accepted. -/
def mkSourceConfig (name tool_name : String) (enabled : Bool)
    (interval_minutes : Int) (tool_params : List (String × PyValue)) :
    Except String SourceConfig :=
  if name = "" then
    Except.error "Source name cannot be empty"
  else if tool_name = "" then
    Except.error "Tool name cannot be empty"
  else if interval_minutes < 1 then
    Except.error ("Interval must be at least 1 minute, got " ++
      toString interval_minutes)
  else
    Except.ok { name := name, tool_name := tool_name, enabled := enabled,
                interval_minutes := interval_minutes, tool_params := tool_params }

/-- `warmer.WarmResult`: result of one cache warming operation. -/
structure WarmResult where
  source_name : String
  success : Bool
  timestamp : Nat
  duration_seconds : ℚ
  error_message : Option String := Option.none
  items_cached : Nat := 0
  deriving DecidableEq

namespace MetricsCollector

/-- The per-source metrics record: the dict produced by the defaultdict
factory in `MetricsCollector.__init__` (metrics.py lines 21-32). -/
structure SourceMetrics where
  total_runs : Nat
  successful_runs : Nat
  failed_runs : Nat
  total_duration : ℚ
  total_items : Nat
  last_success_time : Option Nat
  last_failure_time : Option Nat
  last_error : Option String
  last_duration : ℚ
  last_items : Nat
  deriving DecidableEq

/-- The defaultdict factory value: all counters zero, all lasts empty. -/
def defaultSourceMetrics : SourceMetrics :=
  { total_runs := 0, successful_runs := 0, failed_runs := 0,
    total_duration := 0, total_items := 0,
    last_success_time := Option.none, last_failure_time := Option.none,
    last_error := Option.none, last_duration := 0, last_items := 0 }

/-- The `self._metrics` table: a defaultdict keyed by source name. -/
abbrev MetricsState := List (String × SourceMetrics)

/-- Python defaultdict indexing `self._metrics[name]`: return the stored
record, or create (append) the factory default and return it. -/
def dictGetDefault (st : MetricsState) (name : String) :
    SourceMetrics × MetricsState :=
  match st.lookup name with
  | some m => (m, st)
  | Option.none => (defaultSourceMetrics, st ++ [(name, defaultSourceMetrics)])

/-- In-place mutation of the record stored under an existing key. -/
def assocUpdate (st : MetricsState) (name : String) (m : SourceMetrics) :
    MetricsState :=
  st.map (fun p => if p.1 == name then (name, m) else p)

/-- `MetricsCollector.record_warm_result` (metrics.py lines 34-58). -/
def record_warm_result (st : MetricsState) (r : WarmResult) : MetricsState :=
  let m0 := (dictGetDefault st r.source_name).1
  let st1 := (dictGetDefault st r.source_name).2
  let m1 := { m0 with total_runs := m0.total_runs + 1 }
  let m2 :=
    if r.success then
      { m1 with successful_runs := m1.successful_runs + 1,
                last_success_time := some r.timestamp,
                total_items := m1.total_items + r.items_cached,
                last_items := r.items_cached }
    else
      { m1 with failed_runs := m1.failed_runs + 1,
                last_failure_time := some r.timestamp,
                last_error := r.error_message }
  let m3 := { m2 with total_duration := m2.total_duration + r.duration_seconds,
                      last_duration := r.duration_seconds }
  assocUpdate st1 r.source_name m3

/-- The dict returned by `get_source_metrics` for a recorded source:
a copy of the stored record plus the derived rate fields. -/
structure SourceSnapshot where
  base : SourceMetrics
  success_rate : ℚ
  average_duration : ℚ
  average_items : ℚ
  deriving DecidableEq

/-- Derived-metric computation of `get_source_metrics`
(metrics.py lines 77-88). -/
def mkSnapshot (m : SourceMetrics) : SourceSnapshot :=
  { base := m,
    success_rate :=
      if m.total_runs > 0 then (m.successful_runs : ℚ) / (m.total_runs : ℚ) else 0,
    average_duration :=
      if m.total_runs > 0 then m.total_duration / (m.total_runs : ℚ) else 0,
    average_items :=
      if m.successful_runs > 0 then (m.total_items : ℚ) / (m.successful_runs : ℚ)
      else 0 }

/-- Body of `get_source_metrics` once the lock is held (lines 72-90):
the `not in` membership test does not trigger the defaultdict factory,
so an unrecorded name yields the empty dict (`Option.none`) and the
table is untouched; a recorded name yields a snapshot copy.  Returns
the result together with the (possibly extended) table. -/
def gsmBody (st : MetricsState) (name : String) :
    Option SourceSnapshot × MetricsState :=
  if (st.lookup name).isSome then
    let (m, st1) := dictGetDefault st name
    (some (mkSnapshot m), st1)
  else
    (Option.none, st)

/-- `with self._lock:` on a non-reentrant `threading.Lock`: if the lock
is already held by this thread the acquisition blocks forever, modelled
as `Option.none`; otherwise the body runs. -/
def withLock {α : Type} (held : Bool) (body : α) : Option α :=
  if held then Option.none else some body

/-- `MetricsCollector.get_source_metrics` (metrics.py lines 61-90),
parameterised by whether this thread already holds `self._lock`.
`Option.none` means the call never returns (deadlock). -/
def get_source_metrics (held : Bool) (st : MetricsState) (name : String) :
    Option (Option SourceSnapshot × MetricsState) :=
  withLock held (gsmBody st name)

/-- The `summary` dict of `get_all_metrics` (metrics.py lines 120-127). -/
structure MetricsSummary where
  total_sources : Nat
  total_runs : Nat
  total_successful : Nat
  total_failed : Nat
  total_items_cached : Nat
  overall_success_rate : ℚ
  deriving DecidableEq

/-- The dict returned by `get_all_metrics`. -/
structure AllMetrics where
  sources : List (String × Option SourceSnapshot)
  summary : MetricsSummary
  deriving DecidableEq

/-- `source_metrics.get(field, 0)` on a possibly-empty per-source dict. -/
def snapRuns : Option SourceSnapshot → Nat
  | some s => s.base.total_runs
  | Option.none => 0

/-- `source_metrics.get('successful_runs', 0)`. -/
def snapSuccessful : Option SourceSnapshot → Nat
  | some s => s.base.successful_runs
  | Option.none => 0

/-- `source_metrics.get('failed_runs', 0)`. -/
def snapFailed : Option SourceSnapshot → Nat
  | some s => s.base.failed_runs
  | Option.none => 0

/-- `source_metrics.get('total_items', 0)`. -/
def snapItems : Option SourceSnapshot → Nat
  | some s => s.base.total_items
  | Option.none => 0

/-- Accumulator of the `for source_name in self._metrics` loop in
`get_all_metrics`: collected per-source snapshots and running totals. -/
structure AllAcc where
  sources : List (String × Option SourceSnapshot)
  total_runs : Nat
  total_successful : Nat
  total_failed : Nat
  total_items : Nat

/-- `MetricsCollector.get_all_metrics` (metrics.py lines 92-128).
It acquires `self._lock` and then, for each recorded source, calls
`self.get_source_metrics`, which tries to acquire the same
non-reentrant lock again; that inner acquisition blocks forever, so
the whole call deadlocks (`Option.none`) as soon as the loop has at
least one iteration. -/
def get_all_metrics (st : MetricsState) : Option AllMetrics :=
  match withLock false () with
  | Option.none => Option.none
  | some _ =>
    match st.foldlM (fun (acc : AllAcc) p => do
        let (snap, _) ← get_source_metrics true st p.1
        pure { sources := acc.sources ++ [(p.1, snap)],
               total_runs := acc.total_runs + snapRuns snap,
               total_successful := acc.total_successful + snapSuccessful snap,
               total_failed := acc.total_failed + snapFailed snap,
               total_items := acc.total_items + snapItems snap })
      { sources := [], total_runs := 0, total_successful := 0,
        total_failed := 0, total_items := 0 } with
    | Option.none => Option.none
    | some acc =>
      some { sources := acc.sources,
             summary :=
               { total_sources := st.length,
                 total_runs := acc.total_runs,
                 total_successful := acc.total_successful,
                 total_failed := acc.total_failed,
                 total_items_cached := acc.total_items,
                 overall_success_rate :=
                   if acc.total_runs > 0 then
                     (acc.total_successful : ℚ) / (acc.total_runs : ℚ)
                   else 0 } }

end MetricsCollector

/-- `fastmcp.tools.Tool`, as far as the warmer uses it: a name and the
callable `fn`.  A call either returns a value or raises an exception
carrying a message (`Except.error`). -/
structure Tool where
  name : String
  fn : List (String × PyValue) → Except String PyValue

namespace CacheWarmer

/-- `CacheWarmer.__init__` (warmer.py lines 46-60): build the
`self._tool_map` dict from the registry list; a later tool with the
same name overwrites an earlier one. -/
def buildToolMap (registry : List Tool) : List (String × Tool) :=
  registry.foldl (fun m t => assocSet m t.name t) []

/-- `CacheWarmer._find_tool` (warmer.py lines 62-72). -/
def find_tool (registry : List Tool) (tool_name : String) : Option Tool :=
  (buildToolMap registry).lookup tool_name

/-- Item counting on the success path (warmer.py line 108):
`len(result) if isinstance(result, list) else 1`. -/
def countItems : PyValue → Nat
  | PyValue.list l => l.length
  | _ => 1

/-- `CacheWarmer.warm_source` (warmer.py lines 74-137), with the wall
clock abstracted into a `timestamp` and a measured `duration`.  The
body never lets an exception escape: an unknown tool name and a raising
capability both produce a failed `WarmResult`. -/
def warm_source (registry : List Tool) (cfg : SourceConfig)
    (timestamp : Nat) (duration : ℚ) : WarmResult :=
  match find_tool registry cfg.tool_name with
  | Option.none =>
    { source_name := cfg.name, success := false, timestamp := timestamp,
      duration_seconds := duration,
      error_message := some ("Tool not found: " ++ cfg.tool_name),
      items_cached := 0 }
  | some tool =>
    match tool.fn cfg.tool_params with
    | Except.error e =>
      { source_name := cfg.name, success := false, timestamp := timestamp,
        duration_seconds := duration, error_message := some e,
        items_cached := 0 }
    | Except.ok v =>
      { source_name := cfg.name, success := true, timestamp := timestamp,
        duration_seconds := duration, error_message := Option.none,
        items_cached := countItems v }

end CacheWarmer

namespace TaskScheduler

/-- One APScheduler job as `TaskScheduler.add_job` creates it. -/
structure SchedJob where
  id : String
  job_name : String
  interval_minutes : Int
  config : SourceConfig

/-- The APScheduler job store: jobs keyed by their unique id. -/
abbrev JobTable := List (String × SchedJob)

/-- `TaskScheduler.add_job` (scheduler.py lines 65-95): if a job with id
`"warm_" + name` already exists it is removed first, then the job is
added with `replace_existing=True`, carrying the given config and its
interval. -/
def add_job (jobs : JobTable) (cfg : SourceConfig) : JobTable :=
  let job_id := "warm_" ++ cfg.name
  let jobs1 :=
    if (jobs.lookup job_id).isSome then
      jobs.filter (fun p => p.1 ≠ job_id)
    else jobs
  assocSet jobs1 job_id
    { id := job_id, job_name := "Warm cache for " ++ cfg.name,
      interval_minutes := cfg.interval_minutes, config := cfg }

/-- `TaskScheduler.remove_job` (scheduler.py lines 97-110): remove the
job with id `"warm_" + source_name`; if no such job exists APScheduler
raises, the exception is caught and only logged, so the table is
unchanged. -/
def remove_job (jobs : JobTable) (source_name : String) : JobTable :=
  jobs.filter (fun p => p.1 ≠ "warm_" ++ source_name)

end TaskScheduler

/-- Replacement of every non-overlapping occurrence of `pat` (scanning
left to right) by `repl`, on character lists, with explicit fuel so the
definition reduces in the kernel. -/
def replChars (pat repl : List Char) : Nat → List Char → List Char
  | 0, s => s
  | _ + 1, [] => []
  | fuel + 1, c :: rest =>
    if pat.isPrefixOf (c :: rest) then
      repl ++ replChars pat repl fuel ((c :: rest).drop pat.length)
    else
      c :: replChars pat repl fuel rest

/-- Python `str.replace(pat, repl)` for a non-empty pattern: replace
every occurrence, not only a leading one. -/
def pyReplace (s pat repl : String) : String :=
  if pat = "" then s
  else ⟨replChars pat.data repl.data s.data.length s.data⟩

namespace SchedulerManager

open TaskScheduler

/-- The mutable state of a `SchedulerManager`. -/
structure ManagerState where
  is_running : Bool
  jobs : JobTable
  engine_started : Bool
  sources : List SourceConfig

/-- A freshly constructed manager (manager.py `__init__`). -/
def initialManager : ManagerState :=
  { is_running := false, jobs := [], engine_started := false, sources := [] }

/-- `SchedulerConfig.get_enabled_sources` (config.py lines 161-168). -/
def get_enabled_sources (sources : List SourceConfig) : List SourceConfig :=
  sources.filter (fun s => s.enabled)

/-- `SchedulerManager._initialize_components` (manager.py lines 55-120),
with the already-loaded source list and tool registry as inputs.  It
aborts (returns `false`) when the loaded source list is empty — note:
all sources, enabled or not — or when no tools are available; otherwise
it creates a fresh task scheduler, schedules a job per enabled source,
and starts the engine. -/
def initialize_components (st : ManagerState) (loaded : List SourceConfig)
    (tools : List Tool) : Bool × ManagerState :=
  if loaded.isEmpty then (false, st)
  else if tools.isEmpty then (false, st)
  else
    let enabled := get_enabled_sources loaded
    (true, { st with jobs := enabled.foldl add_job [],
                     engine_started := true,
                     sources := loaded })

/-- `SchedulerManager.start` (manager.py lines 122-141). -/
def start (st : ManagerState) (loaded : List SourceConfig)
    (tools : List Tool) : ManagerState :=
  if st.is_running then st
  else
    match initialize_components st loaded tools with
    | (false, st1) => st1
    | (true, st1) => { st1 with is_running := true }

/-- `SchedulerManager.reload_config` (manager.py lines 162-204), with
the newly loaded source list as input.  For each currently scheduled
job id not implied by the new enabled sources it recovers the source
name with `job_id.replace("warm_", "")` and removes that source's job;
then it adds-or-replaces jobs for all new enabled sources and swaps in
the new config. -/
def reload_config (st : ManagerState) (new_sources : List SourceConfig) :
    ManagerState :=
  if st.is_running = false then st
  else
    let current_ids := st.jobs.map (fun p => p.1)
    let new_enabled := get_enabled_sources new_sources
    let new_ids := new_enabled.map (fun s => "warm_" ++ s.name)
    let jobs1 := current_ids.foldl (fun js job_id =>
        if job_id ∈ new_ids then js
        else remove_job js (pyReplace job_id "warm_" "")) st.jobs
    let jobs2 := new_enabled.foldl add_job jobs1
    { st with jobs := jobs2, sources := new_sources }

end SchedulerManager

namespace SchedulerConfig

/-- One element of the `"sources"` array in the JSON config file:
each field may be present or absent. -/
structure SourceEntry where
  name : Option String
  tool_name : Option String
  enabled : Option Bool
  interval_minutes : Option Int
  tool_params : Option (List (String × PyValue))

/-- A successfully parsed JSON config document. -/
structure ConfigData where
  default_interval_minutes : Option Int
  sources : List SourceEntry

/-- Content of a candidate config file: either text that fails JSON
decoding, or a parsed document. -/
inductive FileContent where
  | malformed : FileContent
  | conf : ConfigData → FileContent

/-- Errors `SchedulerConfig.load` can raise. -/
inductive LoadErr where
  | fileNotFound : String → LoadErr
  | jsonDecodeError : LoadErr
  deriving DecidableEq

/-- One iteration of the source loop in `_load_from_file` (config.py
lines 130-145): a missing `name` or `tool_name` key (`KeyError`) or a
failing `SourceConfig` validation (`ValueError`) is caught and the
entry is skipped (`Option.none`). -/
def parseEntry (dflt : Int) (e : SourceEntry) : Option SourceConfig :=
  match e.name, e.tool_name with
  | some n, some t =>
    match mkSourceConfig n t (e.enabled.getD true)
        (e.interval_minutes.getD dflt) (e.tool_params.getD []) with
    | Except.ok s => some s
    | Except.error _ => Option.none
  | _, _ => Option.none

/-- The source loop of `_load_from_file`: append each entry that parses,
`continue` past each one that does not. -/
def loadSources (dflt : Int) (entries : List SourceEntry) : List SourceConfig :=
  entries.foldl (fun acc e =>
    match parseEntry dflt e with
    | some s => acc ++ [s]
    | Option.none => acc) []

/-- `SchedulerConfig._load_from_file` (config.py lines 109-154):
malformed JSON raises (propagates) `json.JSONDecodeError`; a parsed
document yields the per-entry loop with the document's default
interval. -/
def load_from_file : FileContent → Except LoadErr (List SourceConfig)
  | FileContent.malformed => Except.error LoadErr.jsonDecodeError
  | FileContent.conf cd =>
    Except.ok (loadSources (cd.default_interval_minutes.getD 25) cd.sources)

/-- `SchedulerConfig.load` (config.py lines 83-107).  `fs` maps a path to
the content of an existing file; `found_default` is the result of
`_find_config_file` when no explicit path was given.  An explicitly
specified path that does not exist raises `FileNotFoundError`; with no
file at all, the default (empty) configuration is used. -/
def load (config_path : Option String) (fs : String → Option FileContent)
    (found_default : Option FileContent) : Except LoadErr (List SourceConfig) :=
  match config_path with
  | some p =>
    match fs p with
    | Option.none => Except.error (LoadErr.fileNotFound p)
    | some content => load_from_file content
  | Option.none =>
    match found_default with
    | some content => load_from_file content
    | Option.none => Except.ok []

end SchedulerConfig

namespace MetricsCollector

/-- The record the table semantically associates with a name: the stored
record, or the defaultdict factory value for a name never recorded. -/
def aggOf (st : MetricsState) (name : String) : SourceMetrics :=
  (st.lookup name).getD defaultSourceMetrics

end MetricsCollector

/-- Sum of `items_cached` over exactly the successful results. -/
def sumSuccessItems (rs : List WarmResult) : Nat :=
  ((rs.filter (fun r => r.success)).map (fun r => r.items_cached)).sum

/-- A concrete successful warm result for source `"s1"`. -/
def r0 : WarmResult :=
  { source_name := "s1", success := true, timestamp := 0,
    duration_seconds := 0, items_cached := 3 }

/-- A concrete failed warm result for source `"s1"`. -/
def r1 : WarmResult :=
  { source_name := "s1", success := false, timestamp := 1,
    duration_seconds := 0, error_message := some "boom", items_cached := 0 }

/-- A second concrete successful warm result for source `"s1"`. -/
def r2 : WarmResult :=
  { source_name := "s1", success := true, timestamp := 2,
    duration_seconds := 0, items_cached := 2 }

/-- A concrete sequence of warm results, all for source `"s1"`. -/
def listC5 : List WarmResult := [r0, r1, r2]

/-- A concrete source config that is present but disabled. -/
def srcDisabled : SourceConfig :=
  { name := "s1", tool_name := "t1", enabled := false }

/-- A concrete tool named `"t1"` that returns `None`. -/
def toolT1 : Tool :=
  { name := "t1", fn := fun _ => Except.ok PyValue.none }

/-- A concrete tool named `"echo"` returning the list `["a","b","c"]`. -/
def echoTool : Tool :=
  { name := "echo",
    fn := fun _ => Except.ok (PyValue.list
      [PyValue.str "a", PyValue.str "b", PyValue.str "c"]) }

/-- A concrete tool named `"boom"` whose invocation raises. -/
def boomTool : Tool :=
  { name := "boom", fn := fun _ => Except.error "connection reset" }

/-- `SourceConfig(name="s1", tool_name="echo", interval_minutes=5)`. -/
def cfgEcho : SourceConfig :=
  { name := "s1", tool_name := "echo", interval_minutes := 5 }

/-- A config whose tool name is absent from any registry below. -/
def cfgMissing : SourceConfig :=
  { name := "s2", tool_name := "nosuch" }

/-- A config pointing at the raising tool. -/
def cfgBoom : SourceConfig :=
  { name := "s3", tool_name := "boom" }

/-- The same source name as `cfgEcho` but with a changed interval. -/
def cfgEcho10 : SourceConfig :=
  { name := "s1", tool_name := "echo", interval_minutes := 10 }

/-- A source whose own name contains the substring `"warm_"`. -/
def warmxCfg : SourceConfig :=
  { name := "warm_x", tool_name := "t1" }

/-- A running manager whose engine holds the single job for source
`"warm_x"`, i.e. the job with id `"warm_warm_x"`. -/
def mgrWarmX : SchedulerManager.ManagerState :=
  { is_running := true, engine_started := true,
    jobs := TaskScheduler.add_job [] warmxCfg, sources := [warmxCfg] }

namespace SchedulerConfig

/-- A config entry missing the `name` key. -/
def badEntry : SourceEntry :=
  { name := Option.none, tool_name := some "t", enabled := Option.none,
    interval_minutes := Option.none, tool_params := Option.none }

/-- A complete, valid config entry. -/
def goodEntry : SourceEntry :=
  { name := some "s", tool_name := some "t", enabled := Option.none,
    interval_minutes := Option.none, tool_params := Option.none }

/-- A parsed config document holding one bad and one good entry. -/
def cdEx : ConfigData :=
  { default_interval_minutes := some 30, sources := [badEntry, goodEntry] }

/-- A concrete file system: a malformed file, a valid file, nothing else. -/
def fsEx : String → Option FileContent := fun q =>
  if q = "bad.json" then some FileContent.malformed
  else if q = "good.json" then some (FileContent.conf cdEx)
  else Option.none

end SchedulerConfig

namespace MetricsCollector

theorem lookup_append_of_none {β : Type} (l l2 : List (String × β)) (k : String)
    (h : l.lookup k = Option.none) : (l ++ l2).lookup k = l2.lookup k := by
  induction l with
  | nil => rfl
  | cons p rest ih =>
    obtain ⟨pk, pv⟩ := p
    by_cases hk : k == pk
    · simp [List.lookup, hk] at h
    · simp only [List.cons_append, List.lookup, hk] at h ⊢
      exact ih h

theorem dictGetDefault_fst (st : MetricsState) (name : String) :
    (dictGetDefault st name).1 = aggOf st name := by
  unfold dictGetDefault aggOf
  cases h : st.lookup name <;> simp [h]

theorem lookup_dictGetDefault_self (st : MetricsState) (name : String) :
    ((dictGetDefault st name).2).lookup name = some ((dictGetDefault st name).1) := by
  unfold dictGetDefault
  cases h : st.lookup name with
  | some m => simp [h]
  | none =>
    simp only [h]
    rw [lookup_append_of_none st _ name h]
    simp [List.lookup]

theorem lookup_assocUpdate_self (st : MetricsState) (name : String)
    (m : SourceMetrics) (h : (st.lookup name).isSome) :
    (assocUpdate st name m).lookup name = some m := by
  induction st with
  | nil => simp [List.lookup] at h
  | cons p rest ih =>
    obtain ⟨pk, pv⟩ := p
    simp only [assocUpdate, List.map_cons]
    by_cases hk : (pk == name) = true
    · rw [if_pos hk]
      simp [List.lookup]
    · rw [if_neg hk]
      have hk2 : (name == pk) = false := by
        apply beq_eq_false_iff_ne.mpr
        intro hc
        exact hk (beq_iff_eq.mpr hc.symm)
      simp only [List.lookup, hk2] at h ⊢
      exact ih h

theorem aggOf_record (st : MetricsState) (r : WarmResult) :
    aggOf (record_warm_result st r) r.source_name =
      { total_runs := (aggOf st r.source_name).total_runs + 1,
        successful_runs := (aggOf st r.source_name).successful_runs +
          (if r.success then 1 else 0),
        failed_runs := (aggOf st r.source_name).failed_runs +
          (if r.success then 0 else 1),
        total_duration := (aggOf st r.source_name).total_duration +
          r.duration_seconds,
        total_items := (aggOf st r.source_name).total_items +
          (if r.success then r.items_cached else 0),
        last_success_time := if r.success then some r.timestamp
          else (aggOf st r.source_name).last_success_time,
        last_failure_time := if r.success then
          (aggOf st r.source_name).last_failure_time else some r.timestamp,
        last_error := if r.success then (aggOf st r.source_name).last_error
          else r.error_message,
        last_duration := r.duration_seconds,
        last_items := if r.success then r.items_cached
          else (aggOf st r.source_name).last_items } := by
  have hfst := dictGetDefault_fst st r.source_name
  have hlk := lookup_dictGetDefault_self st r.source_name
  unfold record_warm_result
  rw [aggOf, lookup_assocUpdate_self _ _ _ (by rw [hlk]; rfl)]
  rw [hfst] at *
  cases hs : r.success <;> simp [hs]

theorem aggOf_foldl_record (name : String) (rs : List WarmResult)
    (h : ∀ r ∈ rs, r.source_name = name) (st : MetricsState) :
    (aggOf (rs.foldl record_warm_result st) name).total_runs
        = (aggOf st name).total_runs + rs.length ∧
    (aggOf (rs.foldl record_warm_result st) name).successful_runs
        + (aggOf (rs.foldl record_warm_result st) name).failed_runs
        = (aggOf st name).successful_runs + (aggOf st name).failed_runs
          + rs.length ∧
    (aggOf (rs.foldl record_warm_result st) name).total_items
        = (aggOf st name).total_items + sumSuccessItems rs := by
  induction rs generalizing st with
  | nil => simp [sumSuccessItems]
  | cons r rest ih =>
    have hr : r.source_name = name := h r (List.mem_cons_self _ _)
    have hrest : ∀ x ∈ rest, x.source_name = name :=
      fun x hx => h x (List.mem_cons_of_mem _ hx)
    have ihst := ih hrest (record_warm_result st r)
    have hrec := aggOf_record st r
    rw [hr] at hrec
    simp only [List.foldl_cons]
    refine ⟨?_, ?_, ?_⟩
    · rw [ihst.1, hrec]
      simp only [List.length_cons]
      omega
    · rw [ihst.2.1, hrec]
      simp only [List.length_cons]
      cases hs : r.success <;> (simp; omega)
    · rw [ihst.2.2, hrec]
      cases hs : r.success <;>
        simp [sumSuccessItems, List.filter_cons, hs] <;> omega

end MetricsCollector

open MetricsCollector in
/-- C1: the claim says `get_all_metrics()` always completes and returns
the per-source snapshots plus the summary block.  In fact the method
acquires the non-reentrant lock and then calls `get_source_metrics`,
which blocks forever trying to acquire the same lock, as soon as at
least one source has been recorded: at the concrete failing input (one
recorded result for source `"s1"`) the call deadlocks, while on an
empty collector it does return the zero summary with
`overall_success_rate = 0.0`. -/
theorem C1_get_all_metrics_deadlocks :
    get_all_metrics (record_warm_result [] r0) = Option.none ∧
    get_all_metrics [] =
      some { sources := [],
             summary := { total_sources := 0, total_runs := 0,
                          total_successful := 0, total_failed := 0,
                          total_items_cached := 0,
                          overall_success_rate := 0 } } := by
  constructor
  · rfl
  · rfl

open MetricsCollector in
/-- C5: after any sequence of `record_warm_result` calls for one source
name, starting from a fresh collector, the stored aggregate satisfies
`total_runs = N`, `successful_runs + failed_runs = N`, and
`total_items` equals the sum of `items_cached` over exactly the
successful results of the sequence. -/
theorem C5_record_aggregate (name : String) (rs : List WarmResult)
    (h : ∀ r ∈ rs, r.source_name = name) :
    (aggOf (rs.foldl record_warm_result []) name).total_runs = rs.length ∧
    (aggOf (rs.foldl record_warm_result []) name).successful_runs
      + (aggOf (rs.foldl record_warm_result []) name).failed_runs
      = rs.length ∧
    (aggOf (rs.foldl record_warm_result []) name).total_items
      = sumSuccessItems rs := by
  have hmain := aggOf_foldl_record name rs h []
  have h0 : aggOf [] name = defaultSourceMetrics := rfl
  rw [h0] at hmain
  simpa [defaultSourceMetrics] using hmain

open MetricsCollector in
/-- Witness for C5 at the concrete sequence `[r0, r1, r2]` (success with
3 items, failure, success with 2 items) for source `"s1"`. -/
theorem C5_record_aggregate_witness :
    (aggOf (listC5.foldl record_warm_result []) "s1").total_runs
        = listC5.length ∧
    (aggOf (listC5.foldl record_warm_result []) "s1").successful_runs
      + (aggOf (listC5.foldl record_warm_result []) "s1").failed_runs
      = listC5.length ∧
    (aggOf (listC5.foldl record_warm_result []) "s1").total_items
      = sumSuccessItems listC5 :=
  C5_record_aggregate "s1" listC5 (by decide)

open MetricsCollector in
/-- C10: querying `get_source_metrics` for a never-recorded name returns
the empty dict and, despite the backing defaultdict, creates no entry:
the table is returned unchanged, its key count is unchanged, and a
subsequent `get_all_metrics` behaves exactly as before the query. -/
theorem C10_get_source_metrics_frame (st : MetricsState) (name : String)
    (h : st.lookup name = Option.none) :
    get_source_metrics false st name = some (Option.none, st) ∧
    ((gsmBody st name).2).length = st.length ∧
    get_all_metrics ((gsmBody st name).2) = get_all_metrics st := by
  have hb : gsmBody st name = (Option.none, st) := by
    simp [gsmBody, h]
  exact ⟨by simp [get_source_metrics, withLock, hb], by rw [hb], by rw [hb]⟩

open MetricsCollector in
/-- Witness for C10: a collector holding only `"a"` is untouched by a
query for the unrecorded `"b"`. -/
theorem C10_get_source_metrics_frame_witness :
    get_source_metrics false [("a", defaultSourceMetrics)] "b" =
      some (Option.none, [("a", defaultSourceMetrics)]) ∧
    ((gsmBody [("a", defaultSourceMetrics)] "b").2).length =
      ([("a", defaultSourceMetrics)] : MetricsState).length ∧
    get_all_metrics ((gsmBody [("a", defaultSourceMetrics)] "b").2) =
      get_all_metrics [("a", defaultSourceMetrics)] :=
  C10_get_source_metrics_frame [("a", defaultSourceMetrics)] "b" (by decide)

/-- C7: `SourceConfig` construction succeeds exactly when the name is
non-empty, the tool name is non-empty and the interval is at least 1;
otherwise it raises `ValueError`.  Intervals above 1440 satisfy the
right-hand side, so they are accepted (only logged). -/
theorem C7_mkSourceConfig_ok_iff (name tool_name : String) (enabled : Bool)
    (interval_minutes : Int) (tool_params : List (String × PyValue)) :
    (∃ c, mkSourceConfig name tool_name enabled interval_minutes tool_params
        = Except.ok c)
      ↔ (name ≠ "" ∧ tool_name ≠ "" ∧ 1 ≤ interval_minutes) := by
  unfold mkSourceConfig
  split_ifs with h1 h2 h3
  · simp [h1]
  · simp [h1, h2]
  · simp [h1, h2]
    omega
  · simp [h1, h2]
    omega

open CacheWarmer in
/-- C4: `warm_source` never raises.  If the config's tool name is absent
from the registry it returns a failed `WarmResult` whose non-empty
error message names the missing tool; if the invoked capability raises,
it returns a failed `WarmResult` carrying exactly the exception's
message. -/
theorem C4_warm_source_failures (registry : List Tool) (cfg : SourceConfig)
    (ts : Nat) (dur : ℚ) :
    (find_tool registry cfg.tool_name = Option.none →
      (warm_source registry cfg ts dur).success = false ∧
      (warm_source registry cfg ts dur).error_message
        = some ("Tool not found: " ++ cfg.tool_name) ∧
      ("Tool not found: " ++ cfg.tool_name) ≠ "") ∧
    (∀ tool e, find_tool registry cfg.tool_name = some tool →
      tool.fn cfg.tool_params = Except.error e →
      (warm_source registry cfg ts dur).success = false ∧
      (warm_source registry cfg ts dur).error_message = some e) := by
  constructor
  · intro h
    refine ⟨?_, ?_, ?_⟩
    · simp [warm_source, h]
    · simp [warm_source, h]
    · intro hc
      have h2 : ("Tool not found: " ++ cfg.tool_name).length = 0 := by
        rw [hc]; rfl
      rw [String.length_append] at h2
      have h3 : ("Tool not found: ").length = 16 := rfl
      omega
  · intro tool e hf he
    constructor
    · simp [warm_source, hf, he]
    · simp [warm_source, hf, he]

open CacheWarmer in
/-- Witness for C4: a registry holding only the raising `boom` tool.
`warm_source` on a config whose tool is absent fails with the
tool-not-found message, and on the `boom` config it fails carrying the
raised message. -/
theorem C4_warm_source_failures_witness :
    ((warm_source [boomTool] cfgMissing 0 0).success = false ∧
      (warm_source [boomTool] cfgMissing 0 0).error_message
        = some ("Tool not found: " ++ cfgMissing.tool_name) ∧
      ("Tool not found: " ++ cfgMissing.tool_name) ≠ "") ∧
    ((warm_source [boomTool] cfgBoom 0 0).success = false ∧
      (warm_source [boomTool] cfgBoom 0 0).error_message
        = some "connection reset") :=
  ⟨(C4_warm_source_failures [boomTool] cfgMissing 0 0).1 rfl,
   (C4_warm_source_failures [boomTool] cfgBoom 0 0).2
     boomTool "connection reset" rfl rfl⟩

open CacheWarmer in
/-- C6: when the invoked capability returns normally, `warm_source`
reports success, and `items_cached` is the length of the returned value
when it is a list and 1 for any non-list value. -/
theorem C6_warm_source_item_count (registry : List Tool) (cfg : SourceConfig)
    (ts : Nat) (dur : ℚ) (tool : Tool) (v : PyValue)
    (hf : find_tool registry cfg.tool_name = some tool)
    (hv : tool.fn cfg.tool_params = Except.ok v) :
    (warm_source registry cfg ts dur).success = true ∧
    (warm_source registry cfg ts dur).items_cached = countItems v ∧
    (∀ l, v = PyValue.list l →
      (warm_source registry cfg ts dur).items_cached = l.length) ∧
    (∀ s, v = PyValue.str s →
      (warm_source registry cfg ts dur).items_cached = 1) := by
  refine ⟨?_, ?_, ?_, ?_⟩
  · simp [warm_source, hf, hv]
  · simp [warm_source, hf, hv]
  · intro l hl
    simp [warm_source, hf, hv, hl, countItems]
  · intro s hs
    simp [warm_source, hf, hv, hs, countItems]

open CacheWarmer in
/-- Witness for C6, the spec's concrete scenario 1: the `echo`
capability returns `["a","b","c"]` and
`SourceConfig(name="s1", tool_name="echo", interval_minutes=5)` yields
`WarmResult(success=True, items_cached=3)`. -/
theorem C6_warm_source_item_count_witness :
    (warm_source [echoTool] cfgEcho 0 0).success = true ∧
    (warm_source [echoTool] cfgEcho 0 0).items_cached
      = countItems (PyValue.list [PyValue.str "a", PyValue.str "b",
          PyValue.str "c"]) ∧
    (∀ l, PyValue.list [PyValue.str "a", PyValue.str "b", PyValue.str "c"]
        = PyValue.list l →
      (warm_source [echoTool] cfgEcho 0 0).items_cached = l.length) ∧
    (∀ s, PyValue.list [PyValue.str "a", PyValue.str "b", PyValue.str "c"]
        = PyValue.str s →
      (warm_source [echoTool] cfgEcho 0 0).items_cached = 1) :=
  C6_warm_source_item_count [echoTool] cfgEcho 0 0 echoTool
    (PyValue.list [PyValue.str "a", PyValue.str "b", PyValue.str "c"])
    rfl rfl

theorem lookup_filter_ne {β : Type} (l : List (String × β)) (k : String) :
    (l.filter (fun p => p.1 ≠ k)).lookup k = Option.none := by
  simp
  exact fun a b _ hak hka => hak hka.symm

theorem filter_eq_self_of_lookup_none {β : Type} (l : List (String × β))
    (k : String) (h : l.lookup k = Option.none) :
    l.filter (fun p => p.1 ≠ k) = l := by
  simp at h ⊢
  exact fun a b hm hc => h a b hm hc.symm

theorem filter_ne_append_single {β : Type} (l : List (String × β))
    (k : String) (j : β) :
    ((l.filter (fun p => p.1 ≠ k)) ++ [(k, j)]).filter (fun p => p.1 ≠ k)
      = l.filter (fun p => p.1 ≠ k) := by
  rw [List.filter_append, List.filter_filter]
  simp

namespace TaskScheduler

theorem add_job_eq (jobs : JobTable) (cfg : SourceConfig) :
    add_job jobs cfg =
      jobs.filter (fun p => p.1 ≠ "warm_" ++ cfg.name) ++
        [("warm_" ++ cfg.name,
          { id := "warm_" ++ cfg.name,
            job_name := "Warm cache for " ++ cfg.name,
            interval_minutes := cfg.interval_minutes, config := cfg })] := by
  simp only [add_job, assocSet]
  by_cases h : ((jobs.lookup ("warm_" ++ cfg.name)).isSome) = true
  · rw [if_pos h]
    rw [if_neg (by rw [lookup_filter_ne]; simp)]
  · rw [if_neg h, if_neg h]
    have hnone : jobs.lookup ("warm_" ++ cfg.name) = Option.none := by
      cases hc : jobs.lookup ("warm_" ++ cfg.name) with
      | none => rfl
      | some v => rw [hc] at h; exact absurd rfl h
    rw [filter_eq_self_of_lookup_none _ _ hnone]

end TaskScheduler

open TaskScheduler in
/-- C8: adding a job twice for the same source name (even with a changed
interval) leaves exactly one scheduled job with id `"warm_" + name`,
and that job carries the interval and config of the most recently added
`SourceConfig`. -/
theorem C8_add_job_replaces (jobs : JobTable) (c1 c2 : SourceConfig)
    (hname : c1.name = c2.name) :
    ((add_job (add_job jobs c1) c2).filter
        (fun p => p.1 = "warm_" ++ c2.name)).length = 1 ∧
    (add_job (add_job jobs c1) c2).lookup ("warm_" ++ c2.name)
      = some { id := "warm_" ++ c2.name,
               job_name := "Warm cache for " ++ c2.name,
               interval_minutes := c2.interval_minutes, config := c2 } := by
  rw [add_job_eq jobs c1, add_job_eq _ c2, hname, filter_ne_append_single]
  constructor
  · rw [List.filter_append, List.filter_filter]
    simp
  · rw [MetricsCollector.lookup_append_of_none _ _ _ (lookup_filter_ne _ _)]
    simp [List.lookup]

open TaskScheduler in
/-- Witness for C8: adding `cfgEcho` (interval 5) and then `cfgEcho10`
(same name, interval 10) to an empty scheduler leaves one job with the
interval-10 config. -/
theorem C8_add_job_replaces_witness :
    ((add_job (add_job [] cfgEcho) cfgEcho10).filter
        (fun p => p.1 = "warm_" ++ cfgEcho10.name)).length = 1 ∧
    (add_job (add_job [] cfgEcho) cfgEcho10).lookup
        ("warm_" ++ cfgEcho10.name)
      = some { id := "warm_" ++ cfgEcho10.name,
               job_name := "Warm cache for " ++ cfgEcho10.name,
               interval_minutes := cfgEcho10.interval_minutes,
               config := cfgEcho10 } :=
  C8_add_job_replaces [] cfgEcho cfgEcho10 rfl

open SchedulerManager in
/-- C2 counterexample: the claim says that with zero enabled sources —
including sources present but all disabled — the manager remains not
running after `start()`.  But `_initialize_components` tests the full
loaded list, not the enabled one: with one disabled source and a
non-empty tool registry, `start()` completes and the manager reports
`running = True`. -/
theorem C2_start_all_disabled_runs :
    (start initialManager [srcDisabled] [toolT1]).is_running = true := by
  rfl

open SchedulerManager in
/-- C2 amended: with zero enabled sources, after `start()` the manager
is running iff the loaded source list and the tool registry are both
non-empty (with zero jobs scheduled in every case); it remains not
running only when the loaded list itself is empty or no tools exist. -/
theorem C2_start_zero_enabled (loaded : List SourceConfig)
    (tools : List Tool) (h : ∀ s ∈ loaded, s.enabled = false) :
    (start initialManager loaded tools).is_running
        = (!loaded.isEmpty && !tools.isEmpty) ∧
    (start initialManager loaded tools).jobs = [] := by
  have henab : get_enabled_sources loaded = [] := by
    rw [get_enabled_sources, List.filter_eq_nil_iff]
    intro a ha
    simp [h a ha]
  cases hl : loaded.isEmpty with
  | true => simp [start, initialManager, initialize_components, hl]
  | false =>
    cases ht : tools.isEmpty with
    | true => simp [start, initialManager, initialize_components, hl, ht]
    | false =>
      simp [start, initialManager, initialize_components, hl, ht, henab]

open SchedulerManager in
/-- Witness for the amended C2 at one disabled source and one tool. -/
theorem C2_start_zero_enabled_witness :
    (start initialManager [srcDisabled] [toolT1]).is_running
        = (!([srcDisabled] : List SourceConfig).isEmpty
            && !([toolT1] : List Tool).isEmpty) ∧
    (start initialManager [srcDisabled] [toolT1]).jobs = [] :=
  C2_start_zero_enabled [srcDisabled] [toolT1] (by decide)

open SchedulerManager in
/-- C3: the claim says that after `reload_config` the scheduled job ids
are exactly those of the new enabled sources, for all source names
including names containing `"warm_"`.  The removal path recovers the
source name with `job_id.replace("warm_", "")`, which strips every
occurrence: for the source named `"warm_x"` (job id `"warm_warm_x"`)
it yields `"x"`, `remove_job` then targets the non-existent id
`"warm_x"`, the failure is swallowed, and the stale job
`"warm_warm_x"` survives a reload whose new enabled set is empty. -/
theorem C3_reload_leaves_stale_job :
    ((reload_config mgrWarmX []).jobs.map (fun p => p.1)) = ["warm_warm_x"] ∧
    (get_enabled_sources []).map (fun s => "warm_" ++ s.name)
      = ([] : List String) := by
  constructor
  · rfl
  · rfl

open SchedulerConfig in
/-- C9: `load()` with an explicitly-specified missing path raises
`FileNotFoundError`; a file with malformed JSON makes it raise rather
than return; a valid document yields exactly the per-entry loop result,
and a non-parsing entry is skipped without aborting the remaining
entries. -/
theorem C9_load_errors_and_skip (p : String)
    (fs : String → Option FileContent) (found : Option FileContent) :
    (fs p = Option.none →
      load (some p) fs found = Except.error (LoadErr.fileNotFound p)) ∧
    (fs p = some FileContent.malformed →
      load (some p) fs found = Except.error LoadErr.jsonDecodeError) ∧
    (∀ cd, fs p = some (FileContent.conf cd) →
      load (some p) fs found =
        Except.ok (loadSources (cd.default_interval_minutes.getD 25)
          cd.sources)) ∧
    (∀ dflt (pre suf : List SourceEntry) (bad : SourceEntry),
      parseEntry dflt bad = Option.none →
      loadSources dflt (pre ++ bad :: suf) = loadSources dflt (pre ++ suf)) := by
  refine ⟨?_, ?_, ?_, ?_⟩
  · intro h
    simp [load, h]
  · intro h
    simp [load, h, load_from_file]
  · intro cd h
    simp [load, h, load_from_file]
  · intro dflt pre suf bad hbad
    unfold loadSources
    rw [show pre ++ bad :: suf = (pre ++ [bad]) ++ suf by simp]
    rw [List.foldl_append, List.foldl_append, List.foldl_append]
    congr 1
    simp [hbad]

open SchedulerConfig in
/-- Witness for C9 on the concrete file system `fsEx` and the concrete
document `cdEx` (one entry missing its name, one valid entry). -/
theorem C9_load_errors_and_skip_witness :
    (load (some "absent.json") fsEx Option.none
      = Except.error (LoadErr.fileNotFound "absent.json")) ∧
    (load (some "bad.json") fsEx Option.none
      = Except.error LoadErr.jsonDecodeError) ∧
    (load (some "good.json") fsEx Option.none
      = Except.ok (loadSources (cdEx.default_interval_minutes.getD 25)
          cdEx.sources)) ∧
    (loadSources 25 ([] ++ badEntry :: [goodEntry])
      = loadSources 25 ([] ++ [goodEntry])) :=
  ⟨(C9_load_errors_and_skip "absent.json" fsEx Option.none).1 rfl,
   (C9_load_errors_and_skip "bad.json" fsEx Option.none).2.1 rfl,
   (C9_load_errors_and_skip "good.json" fsEx Option.none).2.2.1 cdEx rfl,
   (C9_load_errors_and_skip "x" fsEx Option.none).2.2.2
     25 [] [goodEntry] badEntry rfl⟩
